import Mathlib

/-!
# Verification of the maybe-mcp categorization / cash-flow core

Shallow embedding of the algorithmic core of the repository:

* `src/services/categorization-engine.ts` — `CategorizationEngine`
  (`categorize`, `detectSubscriptions`, `addRule`, `removeRule`);
* `src/tools/cash-flow.ts` — `get_rolling_cash_flow` handler
  (`excludeTransfers`, totals, `generateInsights`);
* `src/utils/parsers.ts` — `parseAmount`.

JavaScript numbers are modelled by `ℚ`; where `NaN` can arise (date
arithmetic, `parseFloat` results) a number is `Option ℚ` with `none`
standing for `NaN`.  Fallible code returns `Except String`.
The JavaScript `Date` builtin is modelled for ISO `yyyy-mm-dd` date
strings only (the shape the Maybe API delivers), with the host
timezone taken to be UTC; an unparseable string is the Invalid Date,
modelled as `none`.
-/

namespace MaybeMcp

/-! ## JavaScript primitive helpers -/

/-- The characters accepted by the regexp class `\s` (ASCII part). -/
def jsIsSpace (c : Char) : Bool :=
  c = ' ' || c = '\t' || c = '\n' || c = '\r' || c = '\x0b' || c = '\x0c'

/-- Model of `String.prototype.toLowerCase` (ASCII range; the
embedded pattern and keyword texts are ASCII). -/
def strLower (s : String) : String :=
  String.mk (s.toList.map Char.toLower)

/-- Split on a single-character separator (JavaScript
`String.split(sep)` / the `String.splitOn` shape used by the
source). -/
def splitOnChar (sep : Char) : List Char → List (List Char)
  | [] => [[]]
  | c :: cs =>
    let r := splitOnChar sep cs
    if c = sep then [] :: r
    else
      match r with
      | h :: t => (c :: h) :: t
      | [] => [[c]]

/-- String wrapper of `splitOnChar`. -/
def strSplit (s : String) (sep : Char) : List String :=
  (splitOnChar sep s.toList).map String.mk

/-- Digit run value, most significant first. -/
def digitsVal (ds : List Char) : ℚ :=
  ds.foldl (fun acc c => acc * 10 + ((c.toNat - '0'.toNat : ℕ) : ℚ)) 0

/-- Value of `10 ^ e` for an integer exponent, over `ℚ`. -/
def pow10 (e : ℤ) : ℚ :=
  if 0 ≤ e then ((10 : ℚ) ^ e.toNat) else 1 / ((10 : ℚ) ^ (-e).toNat)

/-- Model of the JavaScript `parseFloat` builtin on a character list:
the longest prefix that is a decimal literal (optional sign, digits,
fraction, exponent) is converted; `none` models a `NaN` result.
Non-finite numerals (`Infinity`) are out of the modelled fragment and
also map to `none`. -/
def jsParseFloatCore (s : List Char) : Option ℚ :=
  let s := s.dropWhile jsIsSpace
  let sgn : ℚ := match s with
    | '-' :: _ => -1
    | _ => 1
  let s := match s with
    | '-' :: r => r
    | '+' :: r => r
    | _ => s
  let ip := s.takeWhile Char.isDigit
  let s1 := s.drop ip.length
  let fp := match s1 with
    | '.' :: r => r.takeWhile Char.isDigit
    | _ => []
  let s2 := match s1 with
    | '.' :: r => r.drop fp.length
    | _ => s1
  if ip.isEmpty && fp.isEmpty then none
  else
    let mantissa : ℚ := digitsVal ip + digitsVal fp / pow10 fp.length
    let ex : ℤ := match s2 with
      | c :: r =>
        if c = 'e' || c = 'E' then
          let (esgn, r') : ℤ × List Char := match r with
            | '-' :: r' => (-1, r')
            | '+' :: r' => (1, r')
            | _ => (1, r)
          let ed := r'.takeWhile Char.isDigit
          if ed.isEmpty then 0 else esgn * (digitsVal ed).num
        else 0
      | [] => 0
    some (sgn * mantissa * pow10 ex)

/-- Wrapper of `jsParseFloatCore` on a string. -/
def jsParseFloat (s : String) : Option ℚ := jsParseFloatCore s.toList

/-! ## `src/utils/parsers.ts` — `parseAmount` -/

/-- Currency symbols stripped by `parseAmount`
(regexp `[€$£¥₹¢]`). -/
def isCurrencySymbol (c : Char) : Bool :=
  c = '€' || c = '$' || c = '£' || c = '¥' || c = '₹' || c = '¢'

/-- Index of the last occurrence of `c` in `cs`, or `none`
(`String.lastIndexOf`). -/
def lastIdxOf (cs : List Char) (c : Char) : Option ℕ :=
  (List.range cs.length).foldl
    (fun acc i => if cs.get? i = some c then some i else acc) none

/-- Replace the first occurrence of `c` by `d`
(JavaScript `String.replace` with a string pattern). -/
def replaceFirstChar : List Char → Char → Char → List Char
  | [], _, _ => []
  | x :: xs, c, d => if x = c then d :: xs else x :: replaceFirstChar xs c d

/-- The decimal/thousand-separator normalisation step of `parseAmount`
(the `includes(',')` / `includes('.')` case split). -/
def commaDotFix (cs : List Char) : List Char :=
  if cs.contains ',' && cs.contains '.' then
    let lastComma := lastIdxOf cs ','
    let lastDot := lastIdxOf cs '.'
    if lastDot.getD 0 < lastComma.getD 0 then
      -- European format: 1.234,56
      replaceFirstChar (cs.filter (· ≠ '.')) ',' '.'
    else
      -- US format: 1,234.56
      cs.filter (· ≠ ',')
  else if cs.contains ',' then
    let parts := splitOnChar ',' cs
    if parts.length = 2 && (parts.getD 1 []).length = 2 then
      -- Likely decimal: 123,45
      replaceFirstChar cs ',' '.'
    else
      -- Likely thousands: 1,234 or 1,234,567
      cs.filter (· ≠ ',')
  else cs

/-- Embedding of `parseAmount` from `src/utils/parsers.ts`.  `Transaction.amount` is
a string (see `TransactionSchema` in `src/services/api-client.ts`), so
the `typeof amount === 'number'` fast path of the source is not
reachable from the embedded call sites and the embedding takes the
string branch only.  Thrown errors are modelled by `Except.error`. -/
def parseAmount (amount : String) : Except String ℚ :=
  if amount = "" then .error "Invalid amount input"
  else
    let cleaned := amount.toList.filter
      (fun c => ¬ isCurrencySymbol c ∧ ¬ jsIsSpace c)
    let isNegative := cleaned.contains '-' || cleaned.contains '(' ||
      cleaned.head? = some '−'
    let cleaned := cleaned.filter
      (fun c => c ≠ '(' ∧ c ≠ ')' ∧ c ≠ '−' ∧ c ≠ '-')
    let cleaned := commaDotFix cleaned
    match jsParseFloatCore cleaned with
    | none => .error ("Unable to parse amount: " ++ amount)
    | some parsed => .ok (if isNegative then -|parsed| else parsed)

/-! ## Date model

`new Date(s)` restricted to ISO `yyyy-mm-dd` strings.  A date value is
the day count since the Unix epoch (`Option ℤ`, `none` = Invalid
Date); `getTime` scales it to milliseconds. -/

/-- Day count since 1970-01-01 of a proleptic-Gregorian civil date
(standard civil-calendar conversion, truncating division as in the
ECMAScript day-number computation). -/
def daysFromCivil (y : ℤ) (m : ℕ) (d : ℕ) : ℤ :=
  let y' : ℤ := if m ≤ 2 then y - 1 else y
  let era : ℤ := (if 0 ≤ y' then y' else y' - 399) / 400
  let yoe : ℕ := (y' - era * 400).toNat
  let mp : ℕ := (m + 9) % 12
  let doy : ℕ := (153 * mp + 2) / 5 + d - 1
  let doe : ℕ := yoe * 365 + yoe / 4 - yoe / 100 + doy
  era * 146097 + (doe : ℤ) - 719468

/-- Civil date `(year, month 1..12, day 1..31)` of an epoch day count
(inverse of `daysFromCivil`). -/
def civilFromDays (z : ℤ) : ℤ × ℕ × ℕ :=
  let z' := z + 719468
  let era : ℤ := (if 0 ≤ z' then z' else z' - 146096) / 146097
  let doe : ℕ := (z' - era * 146097).toNat
  let yoe : ℕ := (doe - doe / 1460 + doe / 36524 - doe / 146096) / 365
  let doy : ℕ := doe - (365 * yoe + yoe / 4 - yoe / 100)
  let mp : ℕ := (5 * doy + 2) / 153
  let d : ℕ := doy - (153 * mp + 2) / 5 + 1
  let m : ℕ := if mp < 10 then mp + 3 else mp - 9
  (era * 400 + (yoe : ℤ) + (if m ≤ 2 then 1 else 0), m, d)

/-- Number of days in a month of a given year. -/
def daysInMonth (y : ℤ) (m : ℕ) : ℕ :=
  if m = 2 then
    if y % 4 = 0 ∧ (y % 100 ≠ 0 ∨ y % 400 = 0) then 29 else 28
  else if m = 4 ∨ m = 6 ∨ m = 9 ∨ m = 11 then 30
  else 31

/-- Is `s` a run of exactly `n` ASCII digits? -/
def allDigits (n : ℕ) (s : String) : Bool :=
  s.toList.length = n && s.toList.all Char.isDigit

/-- Numeric value of a digit string. -/
def natOfDigits (s : String) : ℕ :=
  s.toList.foldl (fun acc c => acc * 10 + (c.toNat - '0'.toNat)) 0

/-- Model of the JavaScript `new Date(s)` builtin restricted to ISO
`yyyy-mm-dd` date strings: the epoch day count, or `none` (Invalid
Date) when the string is not a valid calendar date of that shape. -/
def jsParseDate (s : String) : Option ℤ :=
  match strSplit s '-' with
  | [ys, ms, ds] =>
    if allDigits 4 ys && allDigits 2 ms && allDigits 2 ds then
      let y : ℤ := natOfDigits ys
      let m := natOfDigits ms
      let d := natOfDigits ds
      if 1 ≤ m ∧ m ≤ 12 ∧ 1 ≤ d ∧ d ≤ daysInMonth y m then
        some (daysFromCivil y m d)
      else none
    else none
  | _ => none

/-- Model of `new Date(s).getTime()` in milliseconds; `none` = `NaN`. -/
def jsGetTime (s : String) : Option ℚ :=
  (jsParseDate s).map (fun z => (z : ℚ) * 86400000)

/-- Model of `date.getDay()` (0 = Sunday); the epoch day 0 was a Thursday.
`none` = `NaN` (Invalid Date). -/
def jsGetDay (d : Option ℤ) : Option ℤ :=
  d.map (fun z => (z + 4) % 7)

/-- Model of `date.getDate()` (day of month); `none` = `NaN`. -/
def jsGetDate (d : Option ℤ) : Option ℤ :=
  d.map (fun z => ((civilFromDays z).2.2 : ℤ))

/-! ## Regular-expression fragment

The rule patterns of `categorization-engine.ts` use only literals,
`\s*`, `.*` and a single alternation group of literals, all with the
`i` flag.  `Pat` is that fragment; `RegExp.test` is substring search
from every position, on lower-cased text (the `i` flag). -/

inductive Pat where
  | lit : String → Pat
  | ws : Pat
  | anystar : Pat
  | alt : List String → Pat
deriving DecidableEq, Repr

/-- Suffixes of `cs` reachable by skipping zero or more whitespace
characters (the positions `\s*` can stop at). -/
def spaceSuffixes : List Char → List (List Char)
  | [] => [[]]
  | c :: cs => (c :: cs) :: (if jsIsSpace c then spaceSuffixes cs else [])

/-- Remainders of `cs` after one pattern atom consumes a front
segment.  (`.` does not match line terminators; the embedded inputs
contain none.) -/
def consume (p : Pat) (cs : List Char) : List (List Char) :=
  match p with
  | .lit s =>
    if s.toList.isPrefixOf cs then [cs.drop s.toList.length] else []
  | .ws => spaceSuffixes cs
  | .anystar => cs.tails
  | .alt alts =>
    alts.filterMap (fun a =>
      if a.toList.isPrefixOf cs then some (cs.drop a.toList.length) else none)

/-- Match a pattern list against the front of `cs`: some chain of
consumptions survives. -/
def matchHere (ps : List Pat) (cs : List Char) : Bool :=
  !(ps.foldl (fun states p => states.flatMap (consume p)) [cs]).isEmpty

/-- Match a pattern list at some position of `cs`. -/
def matchScan (ps : List Pat) : List Char → Bool
  | [] => matchHere ps []
  | c :: cs => matchHere ps (c :: cs) || matchScan ps cs

/-- Model of `RegExp(p, 'i').test s`. -/
def testPat (ps : List Pat) (s : String) : Bool :=
  matchScan ps (strLower s).toList

/-- Model of `String.includes` (substring test). -/
def strIncludes (s sub : String) : Bool :=
  matchScan [.lit sub] s.toList

/-! ## Data model — `TransactionSchema` of `src/services/api-client.ts` -/

structure AccountRef where
  id : String
  name : String
  account_type : String
deriving DecidableEq, Repr

structure Transaction where
  id : String
  date : String
  name : Option String
  amount : String
  currency : String
  classification : Option String
  category : Option String
  merchant : Option String
  tags : List String
  excluded : Bool
  notes : Option String
  account : Option AccountRef
  created_at : String
  updated_at : String
deriving DecidableEq, Repr

/-- Truthiness of a JavaScript nullable string: `null`, `undefined`
and `''` are falsy. -/
def jsStrFalsy : Option String → Bool
  | none => true
  | some s => s = ""

/-- Short-circuit `a || b` on nullable strings. -/
def jsOrOpt (a b : Option String) : Option String :=
  if jsStrFalsy a then b else a

/-- Evaluation of `(a || b || '')` to a plain string: a falsy value of
`a || b` is either `null` or `''`, and `'' || ''` is `''`. -/
def jsOrStr (a b : Option String) : String :=
  (jsOrOpt a b).getD ""

/-- Template-literal rendering `${v}` of a nullable string
(`null` prints as `"null"`). -/
def templateStr : Option String → String
  | none => "null"
  | some s => s

/-! ## Rule model — `CategorizationRule` of
`src/services/categorization-engine.ts` -/

structure AmountRange where
  min : Option ℚ := none
  max : Option ℚ := none
deriving DecidableEq, Repr

structure RuleConditions where
  merchantPatterns : Option (List (List Pat)) := none
  descriptionPatterns : Option (List (List Pat)) := none
  amountRange : Option AmountRange := none
  dayOfWeek : Option (List ℤ) := none
  dayOfMonth : Option (List ℤ) := none
  isRecurring : Option Bool := none
  accountType : Option (List String) := none
deriving DecidableEq, Repr

structure CategorizationRule where
  id : String
  name : String
  category : String
  priority : ℚ
  conditions : RuleConditions
deriving DecidableEq, Repr

namespace SPECIAL_CATEGORIES

def REQUIRED_PURCHASES : String := "Required Purchases"

def DISCRETIONARY : String := "Discretionary Spending"

def SUBSCRIPTIONS : String := "Subscriptions"

def SPENDING_BUT_ASSETS : String := "Spending but Assets"

end SPECIAL_CATEGORIES

/-- The initial value of the private `rules` field of
`CategorizationEngine`, with each regular expression transliterated
into the `Pat` fragment. -/
def defaultRules : List CategorizationRule :=
  [ -- Required Purchases - Groceries
    { id := "groceries_nl"
      name := "Dutch Grocery Stores"
      category := SPECIAL_CATEGORIES.REQUIRED_PURCHASES
      priority := 95
      conditions := {
        merchantPatterns := some
          [[.lit "albert", .ws, .lit "heijn"], [.lit "jumbo"], [.lit "lidl"],
           [.lit "aldi"], [.lit "plus"], [.lit "coop"],
           [.lit "dirk"], [.lit "vomar"], [.lit "deen"], [.lit "spar"],
           [.lit "ekoplaza"], [.lit "marqt"]]
        descriptionPatterns := some
          [[.lit "supermar"], [.lit "grocery"], [.lit "boodschap"]] } },
    { id := "groceries_general"
      name := "General Grocery"
      category := SPECIAL_CATEGORIES.REQUIRED_PURCHASES
      priority := 90
      conditions := {
        descriptionPatterns := some
          [[.lit "grocery"], [.lit "supermarket"],
           [.lit "food", .ws, .lit "store"], [.lit "market"]]
        amountRange := some { min := some 10, max := some 300 } } },
    -- Required Purchases - Utilities
    { id := "utilities_energy"
      name := "Energy Utilities"
      category := SPECIAL_CATEGORIES.REQUIRED_PURCHASES
      priority := 100
      conditions := {
        merchantPatterns := some
          [[.lit "eneco"], [.lit "vattenfall"], [.lit "essent"], [.lit "nuon"],
           [.lit "greenchoice"], [.lit "pure", .ws, .lit "energie"],
           [.lit "vandebron"], [.lit "budget", .ws, .lit "energie"],
           [.lit "engie"]]
        descriptionPatterns := some
          [[.lit "electricity"], [.lit "gas"], [.lit "energie"],
           [.lit "stroom"]] } },
    { id := "utilities_water"
      name := "Water Utilities"
      category := SPECIAL_CATEGORIES.REQUIRED_PURCHASES
      priority := 100
      conditions := {
        merchantPatterns := some
          [[.lit "waternet"], [.lit "vitens"], [.lit "pwn"], [.lit "evides"],
           [.lit "dunea"]]
        descriptionPatterns := some [[.lit "water"]] } },
    { id := "utilities_internet"
      name := "Internet/Telecom"
      category := SPECIAL_CATEGORIES.REQUIRED_PURCHASES
      priority := 95
      conditions := {
        merchantPatterns := some
          [[.lit "ziggo"], [.lit "kpn"], [.lit "vodafone"], [.lit "t-mobile"],
           [.lit "tele2"], [.lit "xs4all"], [.lit "online.nl"]]
        descriptionPatterns := some
          [[.lit "internet"], [.lit "broadband"], [.lit "telecom"]]
        isRecurring := some true } },
    -- Required Purchases - Housing
    { id := "rent"
      name := "Rent/Mortgage"
      category := SPECIAL_CATEGORIES.REQUIRED_PURCHASES
      priority := 100
      conditions := {
        descriptionPatterns := some
          [[.lit "rent"], [.lit "huur"], [.lit "mortgage"],
           [.lit "hypotheek"], [.lit "woning"], [.lit "verhuur"]]
        dayOfMonth := some [1, 2, 3, 28, 29, 30, 31]
        amountRange := some { min := some 400 } } },
    { id := "insurance"
      name := "Insurance"
      category := SPECIAL_CATEGORIES.REQUIRED_PURCHASES
      priority := 95
      conditions := {
        merchantPatterns := some
          [[.lit "achmea"], [.lit "aegon"], [.lit "asr"], [.lit "nn"],
           [.lit "nationale", .anystar, .lit "nederlanden"],
           [.lit "zilveren", .ws, .lit "kruis"], [.lit "cz"], [.lit "vgz"],
           [.lit "menzis"], [.lit "fbto"]]
        descriptionPatterns := some
          [[.lit "insurance"], [.lit "verzekering"], [.lit "zorgverzekering"],
           [.lit "inboedel"], [.lit "aansprakelijk"]]
        isRecurring := some true } },
    -- Subscriptions - Streaming
    { id := "streaming"
      name := "Streaming Services"
      category := SPECIAL_CATEGORIES.SUBSCRIPTIONS
      priority := 85
      conditions := {
        merchantPatterns := some
          [[.lit "netflix"], [.lit "spotify"], [.lit "disney"], [.lit "hbo"],
           [.lit "videoland"], [.lit "amazon", .ws, .lit "prime"],
           [.lit "apple", .ws, .alt ["tv", "music"]],
           [.lit "youtube", .ws, .lit "premium"],
           [.lit "viaplay"], [.lit "nlziet"], [.lit "discovery"]]
        isRecurring := some true
        amountRange := some { min := some 5, max := some 50 } } },
    -- Subscriptions - Software
    { id := "software"
      name := "Software Subscriptions"
      category := SPECIAL_CATEGORIES.SUBSCRIPTIONS
      priority := 80
      conditions := {
        merchantPatterns := some
          [[.lit "adobe"], [.lit "microsoft"], [.lit "dropbox"],
           [.lit "google", .ws, .lit "storage"], [.lit "github"],
           [.lit "slack"], [.lit "notion"], [.lit "1password"],
           [.lit "lastpass"]]
        descriptionPatterns := some
          [[.lit "subscription"], [.lit "monthly"], [.lit "license"]]
        isRecurring := some true } },
    -- Subscriptions - Gym
    { id := "gym"
      name := "Gym/Fitness"
      category := SPECIAL_CATEGORIES.SUBSCRIPTIONS
      priority := 80
      conditions := {
        merchantPatterns := some
          [[.lit "basic", .anystar, .lit "fit"],
           [.lit "fit", .ws, .lit "for", .ws, .lit "free"],
           [.lit "sportcity"], [.lit "anytime", .ws, .lit "fitness"],
           [.lit "gym"], [.lit "fitness"]]
        descriptionPatterns := some
          [[.lit "gym"], [.lit "fitness"], [.lit "sport"]]
        isRecurring := some true } },
    -- Discretionary - Dining
    { id := "dining_restaurants"
      name := "Restaurants"
      category := SPECIAL_CATEGORIES.DISCRETIONARY
      priority := 70
      conditions := {
        merchantPatterns := some
          [[.lit "restaurant"], [.lit "cafe"], [.lit "bistro"],
           [.lit "brasserie"], [.lit "pizzeria"], [.lit "sushi"],
           [.lit "burger"], [.lit "grill"]]
        descriptionPatterns := some
          [[.lit "restaurant"], [.lit "dining"], [.lit "lunch"],
           [.lit "dinner"], [.lit "breakfast"], [.lit "brunch"]]
        amountRange := some { min := some 15 } } },
    { id := "dining_fast_food"
      name := "Fast Food"
      category := SPECIAL_CATEGORIES.DISCRETIONARY
      priority := 65
      conditions := {
        merchantPatterns := some
          [[.lit "mcdonald"], [.lit "burger", .ws, .lit "king"], [.lit "kfc"],
           [.lit "subway"], [.lit "domino"], [.lit "pizza", .ws, .lit "hut"],
           [.lit "new", .ws, .lit "york", .ws, .lit "pizza"],
           [.lit "thuisbezorgd"], [.lit "uber", .ws, .lit "eats"],
           [.lit "deliveroo"]]
        amountRange := some { min := some 5, max := some 50 } } },
    -- Discretionary - Entertainment
    { id := "entertainment"
      name := "Entertainment"
      category := SPECIAL_CATEGORIES.DISCRETIONARY
      priority := 60
      conditions := {
        merchantPatterns := some
          [[.lit "pathe"], [.lit "cinema"], [.lit "theater"],
           [.lit "concert"], [.lit "ticketmaster"], [.lit "museum"],
           [.lit "event"]]
        descriptionPatterns := some
          [[.lit "ticket"], [.lit "entertainment"], [.lit "show"],
           [.lit "movie"]] } },
    { id := "shopping_clothing"
      name := "Clothing & Fashion"
      category := SPECIAL_CATEGORIES.DISCRETIONARY
      priority := 60
      conditions := {
        merchantPatterns := some
          [[.lit "h", .ws, .lit "&", .ws, .lit "m"], [.lit "zara"],
           [.lit "primark"], [.lit "c", .ws, .lit "&", .ws, .lit "a"],
           [.lit "hema"], [.lit "uniqlo"], [.lit "nike"], [.lit "adidas"]]
        descriptionPatterns := some
          [[.lit "clothing"], [.lit "fashion"], [.lit "apparel"]] } },
    -- Spending but Assets - Electronics
    { id := "electronics"
      name := "Electronics"
      category := SPECIAL_CATEGORIES.SPENDING_BUT_ASSETS
      priority := 75
      conditions := {
        merchantPatterns := some
          [[.lit "mediamarkt"], [.lit "coolblue"], [.lit "bol.com"],
           [.lit "apple"], [.lit "samsung"], [.lit "bcc"], [.lit "expert"],
           [.lit "paradigit"]]
        descriptionPatterns := some
          [[.lit "laptop"], [.lit "computer"], [.lit "phone"],
           [.lit "tablet"], [.lit "tv"], [.lit "television"],
           [.lit "monitor"], [.lit "headphone"]]
        amountRange := some { min := some 100 } } },
    -- Spending but Assets - Furniture
    { id := "furniture"
      name := "Furniture & Home"
      category := SPECIAL_CATEGORIES.SPENDING_BUT_ASSETS
      priority := 75
      conditions := {
        merchantPatterns := some
          [[.lit "ikea"], [.lit "leen", .ws, .lit "bakker"], [.lit "kwantum"],
           [.lit "praxis"], [.lit "gamma"], [.lit "karwei"],
           [.lit "hornbach"]]
        descriptionPatterns := some
          [[.lit "furniture"], [.lit "meubel"], [.lit "desk"],
           [.lit "chair"], [.lit "table"], [.lit "couch"], [.lit "bed"],
           [.lit "mattress"]]
        amountRange := some { min := some 50 } } },
    -- Spending but Assets - Tools & Equipment
    { id := "tools"
      name := "Tools & Equipment"
      category := SPECIAL_CATEGORIES.SPENDING_BUT_ASSETS
      priority := 70
      conditions := {
        merchantPatterns := some
          [[.lit "bosch"], [.lit "makita"], [.lit "dewalt"],
           [.lit "toolstation"]]
        descriptionPatterns := some
          [[.lit "tool"], [.lit "drill"], [.lit "equipment"],
           [.lit "gereedschap"]]
        amountRange := some { min := some 30 } } } ]

/-- The `{ amount, merchant, description, date }` record `categorize`
precomputes before rule evaluation. -/
structure ParsedTx where
  amount : ℚ
  merchant : String
  description : String
  date : Option ℤ
deriving DecidableEq, Repr

/-- The precomputation at the top of `categorize`: absolute parsed
amount, lower-cased merchant-or-name, lower-cased name, parsed date. -/
def txParsed (tx : Transaction) (amountVal : ℚ) : ParsedTx :=
  { amount := |amountVal|
    merchant := strLower (jsOrStr tx.merchant tx.name)
    description := strLower (tx.name.getD "")
    date := jsParseDate tx.date }

/-- Embedding of the private `matchesRule` method.  The source checks
merchant patterns, description patterns (against description or
merchant), the amount range, day-of-week and day-of-month, in that
order; `isRecurring` and `accountType` conditions are never examined
by the source and so impose no constraint here either. -/
def matchesRule (rule : CategorizationRule) (parsed : ParsedTx) : Bool :=
  let conditions := rule.conditions
  (match conditions.merchantPatterns with
   | some pats =>
     pats.isEmpty || pats.any (fun pattern => testPat pattern parsed.merchant)
   | none => true) &&
  (match conditions.descriptionPatterns with
   | some pats =>
     pats.isEmpty || pats.any (fun pattern =>
       testPat pattern parsed.description || testPat pattern parsed.merchant)
   | none => true) &&
  (match conditions.amountRange with
   | some range =>
     (match range.min with
      | some mn => decide (¬ parsed.amount < mn)
      | none => true) &&
     (match range.max with
      | some mx => decide (¬ mx < parsed.amount)
      | none => true)
   | none => true) &&
  (match conditions.dayOfWeek with
   | some days =>
     days.isEmpty ||
       (match jsGetDay parsed.date with
        | some k => days.contains k
        | none => false)
   | none => true) &&
  (match conditions.dayOfMonth with
   | some days =>
     days.isEmpty ||
       (match jsGetDate parsed.date with
        | some k => days.contains k
        | none => false)
   | none => true)

/-- Embedding of the private `isLikelyGrocery` heuristic. -/
def isLikelyGrocery (merchant description : String) (amount : ℚ) : Bool :=
  let combined := strLower (merchant ++ " " ++ description)
  let groceryKeywords := ["market", "grocery", "food", "supermar", "grocer"]
  groceryKeywords.any (fun keyword => strIncludes combined keyword) &&
    decide (10 ≤ amount) && decide (amount ≤ 300)

/-- The fixed table of common subscription price points. -/
def subscriptionAmounts : List ℚ :=
  [4.99, 5.99, 6.99, 7.99, 8.99, 9.99, 10.99, 11.99,
   12.99, 14.99, 15.99, 19.99, 24.99, 29.99]

/-- Embedding of the private `isLikelySubscription` heuristic. -/
def isLikelySubscription (merchant : String) (amount : ℚ) : Bool :=
  subscriptionAmounts.any (fun a => a = amount) ||
    strIncludes merchant "subscription" ||
    strIncludes merchant "monthly"

/-- Comparator of the rule sort `(a, b) => b.priority - a.priority`
read as the total preorder `b.priority ≤ a.priority`; JavaScript
`Array.prototype.sort` is stable, which `List.mergeSort` models
exactly. -/
def ruleLe (a b : CategorizationRule) : Bool :=
  decide (b.priority ≤ a.priority)

/-- Embedding of `CategorizationEngine.categorize`, parameterised by
the engine's current rule list.  The result `none` models the
`null` return of the `string | null` signature; a thrown
`parseAmount` error propagates. -/
def categorize (rules : List CategorizationRule) (tx : Transaction) :
    Except String (Option String) := do
  let amountVal ← parseAmount tx.amount
  let parsed := txParsed tx amountVal
  let sortedRules := rules.mergeSort ruleLe
  match sortedRules.find? (fun rule => matchesRule rule parsed) with
  | some rule => return some rule.category
  | none =>
    if isLikelyGrocery parsed.merchant parsed.description parsed.amount then
      return some SPECIAL_CATEGORIES.REQUIRED_PURCHASES
    else if isLikelySubscription parsed.merchant parsed.amount then
      return some SPECIAL_CATEGORIES.SUBSCRIPTIONS
    else
      -- Default to discretionary for unmatched expenses
      return some SPECIAL_CATEGORIES.DISCRETIONARY

/-- Embedding of `CategorizationEngine.addRule`: push the rule, then
re-sort the list by descending priority.  The method performs no
validation of any kind. -/
def addRule (rules : List CategorizationRule) (rule : CategorizationRule) :
    List CategorizationRule :=
  (rules ++ [rule]).mergeSort ruleLe

/-- Embedding of `CategorizationEngine.removeRule`: splice out the
first rule with the given id, reporting whether one was found. -/
def removeRule (rules : List CategorizationRule) (ruleId : String) :
    List CategorizationRule × Bool :=
  match rules.findIdx? (fun r => r.id = ruleId) with
  | some i => (rules.eraseIdx i, true)
  | none => (rules, false)

/-! ## NaN-aware number helpers for date arithmetic

Values of type `Option ℚ` model JavaScript numbers where `NaN` can
flow (`none` = `NaN`); arithmetic propagates `NaN` and comparisons
with `NaN` are false. -/

/-- Addition with `NaN` propagation. -/
def jsAdd : Option ℚ → Option ℚ → Option ℚ
  | some x, some y => some (x + y)
  | _, _ => none

/-- Subtraction with `NaN` propagation. -/
def jsSub : Option ℚ → Option ℚ → Option ℚ
  | some x, some y => some (x - y)
  | _, _ => none

/-- Division with `NaN` propagation.  Division by zero (JavaScript
`Infinity`) is unreachable from the embedded call sites, whose
divisors are positive. -/
def jsDiv : Option ℚ → Option ℚ → Option ℚ
  | some x, some y => some (x / y)
  | _, _ => none

/-- Comparison `a <= b`; false when either side is `NaN`. -/
def jsLe (a b : Option ℚ) : Bool :=
  match a, b with
  | some x, some y => decide (x ≤ y)
  | _, _ => false

/-- Comparator of the numeric date sort `(a, b) => a - b`: the sort
key order `a ≤ b`, with a `NaN` comparator value treated as `0`
(ECMAScript `SortCompare`), i.e. both orders allowed. -/
def numAscLe (a b : Option ℚ) : Bool :=
  match a, b with
  | some x, some y => decide (x ≤ y)
  | _, _ => true

/-- Model of `Math.max(...values)`: `NaN` absorbs.  The empty case
(`-Infinity`) is unreachable from the embedded call site, which passes
at least 3 dates. -/
def jsMax : List (Option ℚ) → Option ℚ
  | [] => none
  | v :: rest =>
    rest.foldl
      (fun acc w =>
        match acc, w with
        | some x, some y => some (max x y)
        | _, _ => none) v

/-- Model of `Number.prototype.toFixed(2)`: round to the nearest
hundredth, ties away from zero toward `+∞`, rendered with exactly two
decimals.  (The exponential form for magnitudes `≥ 1e21` is outside
the modelled fragment.) -/
def ratToFixed2 (x : ℚ) : String :=
  let n : ℤ := ⌊x * 100 + 1 / 2⌋
  let m := n.natAbs
  (if n < 0 then "-" else "") ++ toString (m / 100) ++ "." ++
    (if m % 100 < 10 then "0" else "") ++ toString (m % 100)

/-! ## RecurrenceDetector — `detectSubscriptions` -/

inductive Frequency where
  | weekly
  | monthly
  | yearly
deriving DecidableEq, Repr

structure Subscription where
  merchant : String
  amount : Option ℚ
  frequency : Frequency
  lastDate : Option ℚ
  nextExpectedDate : Option ℚ
  confidence : ℚ
  transactions : List Transaction
deriving DecidableEq, Repr

/-- Insertion into the `merchantGroups` record: JavaScript object keys
of this (non-index) shape iterate in insertion order, so the record is
an insertion-ordered association list. -/
def addToGroups (groups : List (String × List Transaction)) (key : String)
    (tx : Transaction) : List (String × List Transaction) :=
  if groups.any (fun g => g.1 = key) then
    groups.map (fun g => if g.1 = key then (g.1, g.2 ++ [tx]) else g)
  else groups ++ [(key, [tx])]

/-- The grouping loop of `detectSubscriptions`: skip transactions not
classified `'expense'`, parse the amount (a thrown parse error
propagates), and group by merchant-or-name plus the 2-decimal
amount. -/
def buildGroups : List Transaction → List (String × List Transaction) →
    Except String (List (String × List Transaction))
  | [], groups => .ok groups
  | tx :: rest, groups =>
    if tx.classification ≠ some "expense" then buildGroups rest groups
    else do
      let amountVal ← parseAmount tx.amount
      let key := templateStr (jsOrOpt tx.merchant tx.name) ++ ":" ++
        ratToFixed2 |amountVal|
      buildGroups rest (addToGroups groups key tx)

/-- Embedding of the private `calculateConfidence`: the fraction of
intervals within 15% of the expected interval.  A `NaN` interval
fails the tolerance comparison. -/
def calculateConfidence (intervals : List (Option ℚ))
    (expectedInterval : ℚ) : ℚ :=
  if intervals.isEmpty then 0
  else
    let tolerance := expectedInterval * 0.15
    let withinTolerance := intervals.filter (fun interval =>
      match interval with
      | some x => decide (|x - expectedInterval| ≤ tolerance)
      | none => false)
    (withinTolerance.length : ℚ) / (intervals.length : ℚ)

/-- Model of the ECMAScript `MakeDay(year, month, date)` with a
0-based, possibly overflowing month and 1-based, possibly overflowing
day: the epoch day count. -/
def jsMakeDay (y m0 d : ℤ) : ℤ :=
  let ym := y + m0.fdiv 12
  let mn := (m0.emod 12).toNat
  daysFromCivil ym (mn + 1) 1 + (d - 1)

/-- Embedding of the private `calculateNextDate`: advance a date (ms
timestamp, `none` = Invalid Date) by 7 days / one calendar month / one
calendar year via `setDate` / `setMonth` / `setFullYear`; calendar
fields read in UTC (host timezone modelled as UTC). -/
def calculateNextDate (lastDate : Option ℚ) (frequency : Frequency) :
    Option ℚ :=
  match lastDate with
  | none => none
  | some t =>
    let dayNum : ℤ := ⌊t / 86400000⌋
    let tod : ℚ := t - (dayNum : ℚ) * 86400000
    let c := civilFromDays dayNum
    let y := c.1
    let m0 : ℤ := (c.2.1 : ℤ) - 1
    let d : ℤ := (c.2.2 : ℤ)
    match frequency with
    | .weekly => some ((jsMakeDay y m0 (d + 7) : ℚ) * 86400000 + tod)
    | .monthly => some ((jsMakeDay y (m0 + 1) d : ℚ) * 86400000 + tod)
    | .yearly => some ((jsMakeDay (y + 1) m0 d : ℚ) * 86400000 + tod)

/-- The nominal period, in milliseconds, against which confidence is
measured (`7 * 24 * 60 * 60 * 1000` etc. in the source). -/
def nominalMs : Frequency → ℚ
  | .weekly => 7 * 24 * 60 * 60 * 1000
  | .monthly => 30 * 24 * 60 * 60 * 1000
  | .yearly => 365 * 24 * 60 * 60 * 1000

/-- The per-group analysis loop body of `detectSubscriptions`:
`none` models `continue` (group discarded). -/
def analyzeGroup (entry : String × List Transaction) : Option Subscription :=
  let txs := entry.2
  if txs.length < 3 then none -- Need at least 3 occurrences
  else
    let parts := strSplit entry.1 ':'
    let merchantName := parts.getD 0 ""
    let amountStr := parts.getD 1 ""
    let amount := jsParseFloat amountStr
    let dates := (txs.map (fun tx => jsGetTime tx.date)).mergeSort numAscLe
    let intervals := (dates.zip dates.tail).map (fun p => jsSub p.2 p.1)
    let avgInterval :=
      jsDiv (intervals.foldl jsAdd (some 0)) (some (intervals.length : ℚ))
    let daysBetween := jsDiv avgInterval (some (1000 * 60 * 60 * 24))
    let freq : Option Frequency :=
      if jsLe (some 6) daysBetween && jsLe daysBetween (some 8) then
        some .weekly
      else if jsLe (some 25) daysBetween && jsLe daysBetween (some 35) then
        some .monthly
      else if jsLe (some 350) daysBetween && jsLe daysBetween (some 380) then
        some .yearly
      else none
    match freq with
    | none => none
    | some frequency =>
      let confidence := calculateConfidence intervals (nominalMs frequency)
      if decide ((0.7 : ℚ) < confidence) then
        let lastDate := jsMax dates
        some { merchant := merchantName
               amount := amount
               frequency := frequency
               lastDate := lastDate
               nextExpectedDate := calculateNextDate lastDate frequency
               confidence := confidence
               transactions := txs }
      else none

/-- Comparator of the final sort
`(a, b) => b.confidence - a.confidence`, read as the total preorder
`b.confidence ≤ a.confidence` (descending confidence). -/
def subLe (a b : Subscription) : Bool :=
  decide (b.confidence ≤ a.confidence)

/-- Embedding of `CategorizationEngine.detectSubscriptions`. -/
def detectSubscriptions (transactions : List Transaction) :
    Except String (List Subscription) := do
  let merchantGroups ← buildGroups transactions []
  return (merchantGroups.filterMap analyzeGroup).mergeSort subLe

/-! ## CashFlowAggregator — `src/tools/cash-flow.ts`,
`get_rolling_cash_flow` -/

/-- Embedding of `getAccountId` from `src/utils/parsers.ts`.  The
untyped `accountId` / `account_id` fallbacks read fields absent from
`TransactionSchema`, so on a schema-conformant transaction the value
is `account?.id || ''`. -/
def getAccountId (tx : Transaction) : String :=
  match tx.account with
  | some a => a.id
  | none => ""

/-- Model of `Set.add` on the transfer-id set (represented as a
duplicate-free list; only membership is consumed). -/
def addSet (s : List String) (x : String) : List String :=
  if s.contains x then s else s ++ [x]

/-- The body of the pairwise scan of `excludeTransfers` for one pair
`(tx1, tx2)`: on a shared date parse both amounts (possible thrown
errors propagate, in source order), then mark both ids when the
classifications are opposite and the absolute amounts differ by less
than `0.01`. -/
def pairStep (tx1 tx2 : Transaction) (acc : List String) :
    Except String (List String) :=
  if tx1.date = tx2.date then do
    let amount1 ← parseAmount tx1.amount
    let amount2 ← parseAmount tx2.amount
    if (tx1.classification = some "income" ∧
          tx2.classification = some "expense") ∨
        (tx1.classification = some "expense" ∧
          tx2.classification = some "income") then
      if abs (|amount1| - |amount2|) < (0.01 : ℚ) then
        pure (addSet (addSet acc tx1.id) tx2.id)
      else pure acc
    else pure acc
  else pure acc

/-- The double loop (`i < j` over positions) of `excludeTransfers`
accumulating the `transferIds` set. -/
def transferIdsAux : List Transaction → List String →
    Except String (List String)
  | [], acc => .ok acc
  | tx :: rest, acc => do
    let acc' ← rest.foldlM (fun a u => pairStep tx u a) acc
    transferIdsAux rest acc'

/-- Embedding of `excludeTransfers`: drop every transaction whose id
was marked as a member of a same-day opposite-classification
near-equal-amount pair. -/
def excludeTransfers (transactions : List Transaction) :
    Except String (List Transaction) := do
  let transferIds ← transferIdsAux transactions []
  return transactions.filter (fun tx => ¬ transferIds.contains tx.id)

/-- The `reduce((sum, t) => sum + parseAmount(t.amount), 0)` fold;
thrown parse errors propagate. -/
def sumAmounts (txs : List Transaction) : Except String ℚ :=
  txs.foldlM (fun sum tx => do
    let a ← parseAmount tx.amount
    pure (sum + a)) 0

/-- Embedding of `generateInsights`.  Currency/percentage formatting
(`formatCurrency`, `formatPercentage`, locale-aware, out of scope) is
modelled as plain 2-decimal rendering, and the emoji prefixes are
dropped; the threshold logic and the set of emitted insights are
verbatim. -/
def generateInsights (transactions : List Transaction)
    (netFlow days avgDailyOutflow : ℚ) : Except String (List String) := do
  -- Net flow insight
  let insights : List String :=
    if netFlow < 0 then
      ["Negative cash flow: spending exceeds income by " ++
        ratToFixed2 |netFlow|]
    else if 0 < netFlow then
      ["Positive cash flow: " ++ ratToFixed2 netFlow ++ " surplus"]
    else []
  -- Daily average insight
  let avgDaily := netFlow / days
  let insights :=
    if avgDaily < -50 then
      insights ++ ["Average daily deficit: " ++ ratToFixed2 |avgDaily|]
    else if 50 < avgDaily then
      insights ++ ["Average daily surplus: " ++ ratToFixed2 avgDaily]
    else insights
  -- Large transactions
  let largeThreshold := avgDailyOutflow * 3
  let largeCount ← transactions.foldlM (fun n tx => do
    let a ← parseAmount tx.amount
    pure (if largeThreshold < |a| then n + 1 else n)) (0 : ℕ)
  let insights :=
    if 0 < largeCount then
      insights ++ [toString largeCount ++
        " large transactions detected (>" ++ ratToFixed2 largeThreshold ++ ")"]
    else insights
  -- Weekend spending
  let weekendTransactions := transactions.filter (fun tx =>
    match jsGetDay (jsParseDate tx.date) with
    | some day => day = 0 || day = 6 -- Sunday or Saturday
    | none => false)
  let weekendSpending ← sumAmounts
    (weekendTransactions.filter (fun tx => tx.classification = some "expense"))
  let weekendAvg := weekendSpending / (days / 7 * 2) -- Approximate weekends
  let insights :=
    if avgDailyOutflow * 1.5 < weekendAvg then
      insights ++ ["Weekend spending is higher than daily average"]
    else insights
  return insights

/-- The by-category record update: add to the per-category
inflow/outflow pair, creating the bucket on first sight (insertion
order preserved). -/
def groupFold (groups : List (String × ℚ × ℚ)) (key : String)
    (dIn dOut : ℚ) : List (String × ℚ × ℚ) :=
  if groups.any (fun g => g.1 = key) then
    groups.map (fun g =>
      if g.1 = key then (g.1, g.2.1 + dIn, g.2.2 + dOut) else g)
  else groups ++ [(key, dIn, dOut)]

/-- Embedding of the `groupByCategory` helper of `cash-flow.ts`
(bucket totals; the formatted `net` of the source is the difference of
the two components). -/
def groupByCategoryFn (transactions : List Transaction) :
    Except String (List (String × ℚ × ℚ)) :=
  transactions.foldlM (fun groups tx => do
    let category := jsOrStr tx.category (some "Uncategorized")
    let amount ← parseAmount tx.amount
    if tx.classification = some "income" then
      pure (groupFold groups category amount 0)
    else if tx.classification = some "expense" then
      pure (groupFold groups category 0 amount)
    else
      pure (groupFold groups category 0 0)) []

/-- The by-account record update (inflows, outflows, transaction
count). -/
def groupAccFold (groups : List (String × ℚ × ℚ × ℕ)) (key : String)
    (dIn dOut : ℚ) : List (String × ℚ × ℚ × ℕ) :=
  if groups.any (fun g => g.1 = key) then
    groups.map (fun g =>
      if g.1 = key then (g.1, g.2.1 + dIn, g.2.2.1 + dOut, g.2.2.2 + 1) else g)
  else groups ++ [(key, dIn, dOut, 1)]

/-- Embedding of the `groupByAccount` helper of `cash-flow.ts`. -/
def groupByAccountFn (transactions : List Transaction) :
    Except String (List (String × ℚ × ℚ × ℕ)) :=
  transactions.foldlM (fun groups tx => do
    let accountName := jsOrStr (tx.account.map (fun a => a.name))
      (some "Unknown Account")
    let amount ← parseAmount tx.amount
    if tx.classification = some "income" then
      pure (groupAccFold groups accountName amount 0)
    else if tx.classification = some "expense" then
      pure (groupAccFold groups accountName 0 amount)
    else
      pure (groupAccFold groups accountName 0 0)) []

/-- Raw tool arguments of `get_rolling_cash_flow` (absent = field not
supplied; type errors of zod are outside the modelled fragment). -/
structure RollingArgs where
  days : Option ℚ := none
  accountIds : Option (List String) := none
  excludeTransfers : Option Bool := none
  groupByCategory : Option Bool := none
  groupByAccount : Option Bool := none
  includeInsights : Option Bool := none
deriving DecidableEq, Repr

/-- Parsed arguments after `GetRollingCashFlowSchema.parse`. -/
structure RollingParams where
  days : ℚ
  accountIds : Option (List String)
  excludeTransfers : Bool
  groupByCategory : Bool
  groupByAccount : Bool
  includeInsights : Bool
deriving DecidableEq, Repr

/-- Embedding of `GetRollingCashFlowSchema.parse`:
`days: z.number().int().positive().max(365).default(30)` plus the
boolean defaults.  A failing check raises a `ZodError`, modelled as
`Except.error` with the message of the first failing check (zod
aggregates issue lists; only success/failure is consumed here). -/
def parseRollingArgs (args : RollingArgs) : Except String RollingParams := do
  let days : ℚ ←
    match args.days with
    | none => .ok 30
    | some d =>
      if d.den ≠ 1 then .error "Expected integer, received float"
      else if d ≤ 0 then .error "Number must be greater than 0"
      else if 365 < d then .error "Number must be less than or equal to 365"
      else .ok d
  .ok { days := days
        accountIds := args.accountIds
        excludeTransfers := args.excludeTransfers.getD true
        groupByCategory := args.groupByCategory.getD false
        groupByAccount := args.groupByAccount.getD false
        includeInsights := args.includeInsights.getD true }

/-- The numeric content of the `get_rolling_cash_flow` result object:
the values passed to `formatCurrency` in `summary`, the
`transactionCount` block, the optional breakdowns and the optional
insight list.  (The `period` / `dateRange` echo of wall-clock inputs
has no algorithmic content.) -/
structure CashFlowSummary where
  inflows : ℚ
  outflows : ℚ
  netFlow : ℚ
  avgDailyInflow : ℚ
  avgDailyOutflow : ℚ
  avgDailyNet : ℚ
  totalCount : ℕ
  filteredOutCount : ℤ
  inflowCount : ℕ
  outflowCount : ℕ
  byCategory : Option (List (String × ℚ × ℚ))
  byAccount : Option (List (String × ℚ × ℚ × ℕ))
  insights : Option (List String)
deriving DecidableEq, Repr

/-- Embedding of the `get_rolling_cash_flow` branch of
`handleCashFlowTools`, parameterised by the transaction batch the
(out-of-scope) API client returns for the date range.  Argument
parsing happens before the `try` block, so a `ZodError` propagates
unwrapped; errors inside the block are re-thrown with the
`Failed to calculate cash flow:` prefix. -/
def getRollingCashFlow (args : RollingArgs)
    (transactions : List Transaction) : Except String CashFlowSummary :=
  match parseRollingArgs args with
  | .error e => .error e
  | .ok params =>
    -- Filter by accounts if specified
    let filtered0 :=
      match params.accountIds with
      | some ids =>
        if 0 < ids.length then
          transactions.filter (fun t => ids.contains (getAccountId t))
        else transactions
      | none => transactions
    let body : Except String CashFlowSummary :=
      -- Exclude transfers if requested
      (if params.excludeTransfers then excludeTransfers filtered0
        else pure filtered0) >>= fun filtered =>
      sumAmounts
        (filtered.filter (fun t => t.classification = some "income")) >>=
        fun inflows =>
      sumAmounts
        (filtered.filter (fun t => t.classification = some "expense")) >>=
        fun outflows =>
      let netFlow := inflows - outflows
      (if params.groupByCategory then (groupByCategoryFn filtered).map some
        else pure none) >>= fun byCategory =>
      (if params.groupByAccount then (groupByAccountFn filtered).map some
        else pure none) >>= fun byAccount =>
      (if params.includeInsights then
          (generateInsights filtered netFlow params.days
            (outflows / params.days)).map some
        else pure none) >>= fun insights =>
      pure { inflows := inflows
             outflows := outflows
             netFlow := netFlow
             avgDailyInflow := inflows / params.days
             avgDailyOutflow := outflows / params.days
             avgDailyNet := netFlow / params.days
             totalCount := filtered.length
             filteredOutCount := (transactions.length : ℤ) - filtered.length
             inflowCount :=
               (filtered.filter
                 (fun t => t.classification = some "income")).length
             outflowCount :=
               (filtered.filter
                 (fun t => t.classification = some "expense")).length
             byCategory := byCategory
             byAccount := byAccount
             insights := insights }
    match body with
    | .ok r => .ok r
    | .error e => .error ("Failed to calculate cash flow: " ++ e)

/-! ## Helper lemmas -/

theorem exceptBind_ok {α β : Type} (a : α) (f : α → Except String β) :
    (Except.ok a >>= f) = f a := rfl

theorem exceptBind_err {α β : Type} (e : String) (f : α → Except String β) :
    ((Except.error e : Except String α) >>= f) = Except.error e := rfl

theorem ruleLe_trans (a b c : CategorizationRule) :
    ruleLe a b = true → ruleLe b c = true → ruleLe a c = true := by
  simp only [ruleLe, decide_eq_true_eq]
  exact fun h1 h2 => h2.trans h1

theorem ruleLe_total (a b : CategorizationRule) :
    (ruleLe a b || ruleLe b a) = true := by
  simp only [ruleLe, Bool.or_eq_true, decide_eq_true_eq]
  exact le_total b.priority a.priority

/-! ## Concrete test data -/

/-- A neutral schema-conformant transaction; concrete inputs below
override individual fields. -/
def baseTx : Transaction :=
  { id := "t0"
    date := "2024-01-15"
    name := some ""
    amount := "1000"
    currency := "EUR"
    classification := some "expense"
    category := none
    merchant := none
    tags := []
    excluded := false
    notes := none
    account := none
    created_at := ""
    updated_at := "" }

/-! ## C4 — `addRule` validation -/

/-- A rule whose id duplicates the built-in `groceries_nl` rule. -/
def dupRule : CategorizationRule :=
  { id := "groceries_nl"
    name := "Duplicate of the built-in grocery rule"
    category := "X"
    priority := 1
    conditions := {} }

unseal Rat.ofScientific Rat.mul Rat.inv Rat.add Rat.sub List.merge List.mergeSort in
/-- C4 counterexample: `addRule` accepts a rule whose id duplicates an
existing rule — the operation is not rejected and the list grows, with
two rules now carrying the id `groceries_nl`; the claimed validation
does not exist. -/
theorem c4_counterexample :
    ((addRule defaultRules dupRule).filter
      (fun r => r.id = "groceries_nl")).length = 2 ∧
    (addRule defaultRules dupRule).length = 18 :=
  ⟨rfl, rfl⟩

/-- C4 (amended): `addRule` performs no validation at all — for every
current rule list and every new rule (duplicate id, non-integral
priority or otherwise), the rule is unconditionally appended and the
list re-sorted by descending priority, so the result contains the new
rule and is exactly one longer. -/
theorem c4_addRule_never_rejects (rules : List CategorizationRule)
    (rule : CategorizationRule) :
    rule ∈ addRule rules rule ∧
    (addRule rules rule).length = rules.length + 1 := by
  constructor
  · simp [addRule, List.mem_mergeSort]
  · simp [addRule, ((rules ++ [rule]).mergeSort_perm ruleLe).length_eq]

/-! ## C8 — non-positive `days` rejected -/

/-- C8: a supplied `days` value `≤ 0` fails the
`z.number().int().positive().max(365)` schema check, so the call is
rejected with a validation error before any computation — uniformly in
the transaction batch, hence no totals are ever produced. -/
theorem c8_nonpositive_days_rejected (args : RollingArgs) (d : ℚ)
    (hd : args.days = some d) (hle : d ≤ 0) :
    ∃ e, ∀ transactions : List Transaction,
      getRollingCashFlow args transactions = Except.error e := by
  by_cases hden : d.den = 1
  · refine ⟨"Number must be greater than 0", fun transactions => ?_⟩
    unfold getRollingCashFlow parseRollingArgs
    rw [hd]
    simp [hden, hle, exceptBind_err]
  · refine ⟨"Expected integer, received float", fun transactions => ?_⟩
    unfold getRollingCashFlow parseRollingArgs
    rw [hd]
    simp [hden, exceptBind_err]

/-- C8 witness at `days = 0` on an arbitrary batch. -/
theorem c8_witness :
    (RollingArgs.days { days := some 0 } = some 0 ∧ (0 : ℚ) ≤ 0) ∧
    ∃ e, ∀ transactions : List Transaction,
      getRollingCashFlow { days := some 0 } transactions = Except.error e :=
  ⟨⟨rfl, le_refl 0⟩,
    c8_nonpositive_days_rejected { days := some 0 } 0 rfl (le_refl 0)⟩

/-! ## C1 — result when no rule and no heuristic applies -/

/-- A transaction nothing applies to: empty merchant/name, amount
1000 (outside the grocery range and the subscription price table). -/
def c1tx : Transaction :=
  { baseTx with amount := "1000" }

unseal Rat.ofScientific Rat.mul Rat.inv Rat.add Rat.sub List.merge List.mergeSort in
/-- C1 counterexample: on a transaction for which no rule fires and
neither fallback heuristic applies, `categorize` does not return
`null` — it falls through to the hard-coded `Discretionary Spending`
default. -/
theorem c1_counterexample :
    (∀ r ∈ defaultRules, matchesRule r (txParsed c1tx 1000) = false) ∧
    isLikelyGrocery (txParsed c1tx 1000).merchant
      (txParsed c1tx 1000).description (txParsed c1tx 1000).amount = false ∧
    isLikelySubscription (txParsed c1tx 1000).merchant
      (txParsed c1tx 1000).amount = false ∧
    categorize defaultRules c1tx = Except.ok (some "Discretionary Spending") ∧
    categorize defaultRules c1tx ≠ Except.ok none :=
  ⟨by decide, rfl, rfl, rfl, by
    intro h
    rw [show categorize defaultRules c1tx =
      Except.ok (some "Discretionary Spending") from rfl] at h
    exact Option.noConfusion (Except.ok.inj h)⟩

/-- C1 (amended): the classifier never returns `null` here — when no
rule fires and neither fallback heuristic applies, `categorize`
returns the catch-all `Discretionary Spending` category instead of
`null`. -/
theorem c1_default_discretionary (rules : List CategorizationRule)
    (tx : Transaction) (a : ℚ)
    (hparse : parseAmount tx.amount = Except.ok a)
    (hnorule : ∀ r ∈ rules, matchesRule r (txParsed tx a) = false)
    (hgro : isLikelyGrocery (txParsed tx a).merchant
      (txParsed tx a).description (txParsed tx a).amount = false)
    (hsub : isLikelySubscription (txParsed tx a).merchant
      (txParsed tx a).amount = false) :
    categorize rules tx = Except.ok (some SPECIAL_CATEGORIES.DISCRETIONARY) := by
  have hfind : (rules.mergeSort ruleLe).find?
      (fun rule => matchesRule rule (txParsed tx a)) = none := by
    apply List.find?_eq_none.mpr
    intro r hr
    simp [hnorule r (List.mem_mergeSort.mp hr)]
  unfold categorize
  rw [hparse, exceptBind_ok]
  simp only [hfind, hgro, hsub, Bool.false_eq_true, if_false]
  rfl

unseal Rat.ofScientific Rat.mul Rat.inv Rat.add Rat.sub in
/-- C1 witness: the amended theorem applied to the concrete
transaction of the counterexample. -/
theorem c1_witness :
    (parseAmount c1tx.amount = Except.ok 1000 ∧
      (∀ r ∈ defaultRules, matchesRule r (txParsed c1tx 1000) = false)) ∧
    categorize defaultRules c1tx =
      Except.ok (some SPECIAL_CATEGORIES.DISCRETIONARY) :=
  ⟨⟨rfl, by decide⟩,
    c1_default_discretionary defaultRules c1tx 1000 rfl (by decide) rfl rfl⟩

/-! ## C2 — transfer pairs excluded from totals -/

theorem mem_addSet_self (s : List String) (x : String) : x ∈ addSet s x := by
  unfold addSet
  split
  · next h => exact List.mem_of_elem_eq_true h
  · exact List.mem_append_right _ (List.mem_singleton.mpr rfl)

theorem mem_addSet_of_mem (s : List String) (x y : String) (h : y ∈ s) :
    y ∈ addSet s x := by
  unfold addSet
  split
  · exact h
  · exact List.mem_append_left _ h

theorem pairStep_mono {t u : Transaction} {acc acc' : List String}
    (h : pairStep t u acc = Except.ok acc') {x : String} (hx : x ∈ acc) :
    x ∈ acc' := by
  unfold pairStep at h
  split at h
  · cases hp1 : parseAmount t.amount with
    | error e => rw [hp1, exceptBind_err] at h; cases h
    | ok a1 =>
      rw [hp1, exceptBind_ok] at h
      cases hp2 : parseAmount u.amount with
      | error e => rw [hp2, exceptBind_err] at h; cases h
      | ok a2 =>
        rw [hp2, exceptBind_ok] at h
        split at h
        · split at h
          · cases h
            exact mem_addSet_of_mem _ _ _ (mem_addSet_of_mem _ _ _ hx)
          · cases h; exact hx
        · cases h; exact hx
  · cases h; exact hx

theorem pairStep_marks {t u : Transaction} {acc acc' : List String} {a1 a2 : ℚ}
    (hd : t.date = u.date)
    (hc : (t.classification = some "income" ∧
            u.classification = some "expense") ∨
          (t.classification = some "expense" ∧
            u.classification = some "income"))
    (ha1 : parseAmount t.amount = Except.ok a1)
    (ha2 : parseAmount u.amount = Except.ok a2)
    (hdiff : abs (|a1| - |a2|) < (0.01 : ℚ))
    (h : pairStep t u acc = Except.ok acc') :
    t.id ∈ acc' ∧ u.id ∈ acc' := by
  unfold pairStep at h
  rw [if_pos hd, ha1, exceptBind_ok, ha2, exceptBind_ok, if_pos hc,
    if_pos hdiff] at h
  cases h
  exact ⟨mem_addSet_of_mem _ _ _ (mem_addSet_self _ _), mem_addSet_self _ _⟩

theorem foldPair_mono {t : Transaction} :
    ∀ (l : List Transaction) {acc acc' : List String},
    l.foldlM (fun a u => pairStep t u a) acc = Except.ok acc' →
    ∀ {x : String}, x ∈ acc → x ∈ acc'
  | [], acc, acc', h, x, hx => by cases h; exact hx
  | u :: rest, acc, acc', h, x, hx => by
    rw [List.foldlM_cons] at h
    cases hp : pairStep t u acc with
    | error e => rw [hp, exceptBind_err] at h; cases h
    | ok acc1 =>
      rw [hp, exceptBind_ok] at h
      exact foldPair_mono rest h (pairStep_mono hp hx)

theorem foldPair_marks {t : Transaction} {a1 a2 : ℚ}
    (ha1 : parseAmount t.amount = Except.ok a1) :
    ∀ (l : List Transaction) {u : Transaction} {acc acc' : List String},
    u ∈ l →
    t.date = u.date →
    ((t.classification = some "income" ∧
        u.classification = some "expense") ∨
      (t.classification = some "expense" ∧
        u.classification = some "income")) →
    parseAmount u.amount = Except.ok a2 →
    abs (|a1| - |a2|) < (0.01 : ℚ) →
    l.foldlM (fun a v => pairStep t v a) acc = Except.ok acc' →
    t.id ∈ acc' ∧ u.id ∈ acc'
  | [], u, acc, acc', hu, _, _, _, _, _ => absurd hu (List.not_mem_nil u)
  | v :: rest, u, acc, acc', hu, hd, hc, ha2, hdiff, h => by
    rw [List.foldlM_cons] at h
    cases hp : pairStep t v acc with
    | error e => rw [hp, exceptBind_err] at h; cases h
    | ok acc1 =>
      rw [hp, exceptBind_ok] at h
      rcases List.mem_cons.mp hu with huv | hurest
      · subst huv
        have hm := pairStep_marks hd hc ha1 ha2 hdiff hp
        exact ⟨foldPair_mono rest h hm.1, foldPair_mono rest h hm.2⟩
      · exact foldPair_marks ha1 rest hurest hd hc ha2 hdiff h

theorem transferIdsAux_mono :
    ∀ (txs : List Transaction) {acc ids : List String},
    transferIdsAux txs acc = Except.ok ids →
    ∀ {x : String}, x ∈ acc → x ∈ ids
  | [], acc, ids, h, x, hx => by cases h; exact hx
  | tx :: rest, acc, ids, h, x, hx => by
    unfold transferIdsAux at h
    cases hf : rest.foldlM (fun a u => pairStep tx u a) acc with
    | error e => rw [hf, exceptBind_err] at h; cases h
    | ok acc1 =>
      rw [hf, exceptBind_ok] at h
      exact transferIdsAux_mono rest h (foldPair_mono rest hf hx)

theorem transferIdsAux_marks :
    ∀ (txs : List Transaction) {acc ids : List String}
    {tx1 tx2 : Transaction} {a1 a2 : ℚ},
    tx1 ∈ txs → tx2 ∈ txs → tx1 ≠ tx2 →
    tx1.date = tx2.date →
    ((tx1.classification = some "income" ∧
        tx2.classification = some "expense") ∨
      (tx1.classification = some "expense" ∧
        tx2.classification = some "income")) →
    parseAmount tx1.amount = Except.ok a1 →
    parseAmount tx2.amount = Except.ok a2 →
    abs (|a1| - |a2|) < (0.01 : ℚ) →
    transferIdsAux txs acc = Except.ok ids →
    tx1.id ∈ ids ∧ tx2.id ∈ ids
  | [], _, _, tx1, _, _, _, h1, _, _, _, _, _, _, _, _ =>
    absurd h1 (List.not_mem_nil tx1)
  | t :: rest, acc, ids, tx1, tx2, a1, a2, h1, h2, hne, hdate, hcls, ha1, ha2,
      hdiff, h => by
    unfold transferIdsAux at h
    cases hf : rest.foldlM (fun a u => pairStep t u a) acc with
    | error e => rw [hf, exceptBind_err] at h; cases h
    | ok acc1 =>
      rw [hf, exceptBind_ok] at h
      by_cases he1 : tx1 = t
      · subst he1
        have h2r : tx2 ∈ rest := by
          rcases List.mem_cons.mp h2 with he | hr
          · exact absurd he.symm hne
          · exact hr
        have hm := foldPair_marks ha1 rest h2r hdate hcls ha2 hdiff hf
        exact ⟨transferIdsAux_mono rest h hm.1, transferIdsAux_mono rest h hm.2⟩
      · by_cases he2 : tx2 = t
        · subst he2
          have h1r : tx1 ∈ rest := by
            rcases List.mem_cons.mp h1 with he | hr
            · exact absurd he he1
            · exact hr
          have hcls' : (tx2.classification = some "income" ∧
                tx1.classification = some "expense") ∨
              (tx2.classification = some "expense" ∧
                tx1.classification = some "income") :=
            hcls.elim (fun ⟨p, q⟩ => Or.inr ⟨q, p⟩) (fun ⟨p, q⟩ => Or.inl ⟨q, p⟩)
          have hdiff' : abs (|a2| - |a1|) < (0.01 : ℚ) := by
            rwa [abs_sub_comm]
          have hm := foldPair_marks ha2 rest h1r hdate.symm hcls' ha1 hdiff' hf
          exact ⟨transferIdsAux_mono rest h hm.2, transferIdsAux_mono rest h hm.1⟩
        · have h1r : tx1 ∈ rest := by
            rcases List.mem_cons.mp h1 with he | hr
            · exact absurd he he1
            · exact hr
          have h2r : tx2 ∈ rest := by
            rcases List.mem_cons.mp h2 with he | hr
            · exact absurd he he2
            · exact hr
          exact transferIdsAux_marks rest h1r h2r hne hdate hcls ha1 ha2 hdiff h

/-- C2: when transfer exclusion runs (and succeeds), any two distinct
batch members on the same date with opposite classification and
absolute amounts within `0.01` are both dropped from the filtered
list the summary totals are folded over — no transaction carrying
either id survives into `inflows`/`outflows`. -/
theorem c2_transfer_pair_excluded (txs : List Transaction)
    (tx1 tx2 : Transaction) (a1 a2 : ℚ) (filtered : List Transaction)
    (h1 : tx1 ∈ txs) (h2 : tx2 ∈ txs) (hne : tx1 ≠ tx2)
    (hdate : tx1.date = tx2.date)
    (hcls : (tx1.classification = some "income" ∧
        tx2.classification = some "expense") ∨
      (tx1.classification = some "expense" ∧
        tx2.classification = some "income"))
    (ha1 : parseAmount tx1.amount = Except.ok a1)
    (ha2 : parseAmount tx2.amount = Except.ok a2)
    (hdiff : abs (|a1| - |a2|) < (0.01 : ℚ))
    (hex : excludeTransfers txs = Except.ok filtered) :
    tx1 ∉ filtered ∧ tx2 ∉ filtered ∧
    ∀ t ∈ filtered, t.id ≠ tx1.id ∧ t.id ≠ tx2.id := by
  unfold excludeTransfers at hex
  cases hids : transferIdsAux txs [] with
  | error e => rw [hids, exceptBind_err] at hex; cases hex
  | ok ids =>
    rw [hids, exceptBind_ok] at hex
    have hmark :=
      transferIdsAux_marks txs h1 h2 hne hdate hcls ha1 ha2 hdiff hids
    cases hex
    have hmem : ∀ t ∈ txs.filter (fun tx => ¬ ids.contains tx.id),
        t.id ≠ tx1.id ∧ t.id ≠ tx2.id := by
      intro t ht
      have hnc := of_decide_eq_true (List.mem_filter.mp ht).2
      constructor
      · intro he
        exact hnc (by rw [he]; exact List.elem_eq_true_of_mem hmark.1)
      · intro he
        exact hnc (by rw [he]; exact List.elem_eq_true_of_mem hmark.2)
    refine ⟨fun hmem1 => (hmem tx1 hmem1).1 rfl,
      fun hmem2 => (hmem tx2 hmem2).2 rfl, hmem⟩

/-- Concrete transfer pair: same-day `+75` income / `75` expense. -/
def c2txA : Transaction :=
  { baseTx with
    id := "a"
    date := "2024-05-01"
    amount := "75"
    classification := some "income" }

/-- The expense side of the concrete transfer pair. -/
def c2txB : Transaction :=
  { baseTx with
    id := "b"
    date := "2024-05-01"
    amount := "75"
    classification := some "expense" }

unseal Rat.ofScientific Rat.mul Rat.inv Rat.add Rat.sub in
/-- C2 witness: on the concrete two-element batch both members are
excluded and the filtered list is empty. -/
theorem c2_witness :
    (c2txA ∈ [c2txA, c2txB] ∧ c2txB ∈ [c2txA, c2txB] ∧ c2txA ≠ c2txB ∧
      parseAmount c2txA.amount = Except.ok 75 ∧
      abs ((|(75 : ℚ)| : ℚ) - |(75 : ℚ)|) < (0.01 : ℚ) ∧
      excludeTransfers [c2txA, c2txB] = Except.ok []) ∧
    (c2txA ∉ ([] : List Transaction) ∧ c2txB ∉ ([] : List Transaction) ∧
      ∀ t ∈ ([] : List Transaction), t.id ≠ c2txA.id ∧ t.id ≠ c2txB.id) :=
  ⟨⟨List.mem_cons_self _ _, by simp, by decide, rfl, by decide, rfl⟩,
    c2_transfer_pair_excluded [c2txA, c2txB] c2txA c2txB 75 75 []
      (List.mem_cons_self _ _) (by simp) (by decide) rfl
      (Or.inl ⟨rfl, rfl⟩) rfl rfl (by decide) rfl⟩

/-! ## C6 — higher priority wins -/

theorem find_first_high_priority (ptx : ParsedTx) (ra rb : CategorizationRule)
    (hlt : rb.priority < ra.priority) :
    ∀ (l : List CategorizationRule),
    l.Pairwise (fun x y => ruleLe x y = true) →
    ra ∈ l →
    matchesRule ra ptx = true →
    (∀ r ∈ l, matchesRule r ptx = true → r = ra ∨ r = rb) →
    l.find? (fun r => matchesRule r ptx) = some ra
  | [], _, hra, _, _ => absurd hra (List.not_mem_nil ra)
  | h :: t, hs, hra, hma, honly => by
    cases hmatch : matchesRule h ptx with
    | true =>
      rw [List.find?_cons, hmatch]
      rcases honly h (List.mem_cons_self h t) hmatch with he | he
      · rw [he]
      · subst he
        exfalso
        have hrat : ra ∈ t := by
          rcases List.mem_cons.mp hra with he2 | hr
          · subst he2; exact absurd rfl (ne_of_gt hlt)
          · exact hr
        have hle := (List.pairwise_cons.mp hs).1 ra hrat
        rw [ruleLe, decide_eq_true_eq] at hle
        exact absurd hlt (not_lt.mpr hle)
    | false =>
      rw [List.find?_cons, hmatch]
      have hrat : ra ∈ t := by
        rcases List.mem_cons.mp hra with he2 | hr
        · subst he2; rw [hma] at hmatch; cases hmatch
        · exact hr
      exact find_first_high_priority ptx ra rb hlt t (List.pairwise_cons.mp hs).2
        hrat hma (fun r hr hm => honly r (List.mem_cons_of_mem h hr) hm)

/-- C6: whenever two rules both match a transaction and one has
strictly higher priority — and no third rule matches — the
higher-priority rule's category is returned, regardless of where the
two rules sit in the registration order (`categorize` sorts by
descending priority with a stable sort and stops at the first firing
rule). -/
theorem c6_priority_wins (rules : List CategorizationRule)
    (tx : Transaction) (a : ℚ) (ra rb : CategorizationRule)
    (hparse : parseAmount tx.amount = Except.ok a)
    (hra : ra ∈ rules) (_hrb : rb ∈ rules)
    (hma : matchesRule ra (txParsed tx a) = true)
    (_hmb : matchesRule rb (txParsed tx a) = true)
    (hlt : rb.priority < ra.priority)
    (honly : ∀ r ∈ rules, matchesRule r (txParsed tx a) = true →
      r = ra ∨ r = rb) :
    categorize rules tx = Except.ok (some ra.category) := by
  have hsorted := @List.sorted_mergeSort CategorizationRule ruleLe
    (fun x y z => ruleLe_trans x y z) (fun x y => ruleLe_total x y) rules
  have hfind : (rules.mergeSort ruleLe).find?
      (fun r => matchesRule r (txParsed tx a)) = some ra :=
    find_first_high_priority (txParsed tx a) ra rb hlt _ hsorted
      (List.mem_mergeSort.mpr hra) hma
      (fun r hr hm => honly r (List.mem_mergeSort.mp hr) hm)
  unfold categorize
  rw [hparse, exceptBind_ok]
  simp only [hfind]
  rfl

/-- Low-priority rule, registered first, matching any description
containing `aaa`. -/
def c6low : CategorizationRule :=
  { id := "low"
    name := "Low"
    category := "LowCat"
    priority := 10
    conditions := { descriptionPatterns := some [[.lit "aaa"]] } }

/-- High-priority rule, registered second. -/
def c6high : CategorizationRule :=
  { id := "high"
    name := "High"
    category := "HighCat"
    priority := 20
    conditions := { descriptionPatterns := some [[.lit "aaa"]] } }

/-- Transaction both `c6low` and `c6high` match. -/
def c6tx : Transaction :=
  { baseTx with name := some "aaa shop", amount := "42" }

unseal Rat.ofScientific Rat.mul Rat.inv Rat.add Rat.sub List.merge List.mergeSort in
/-- C6 witness: with the lower-priority rule registered first, the
higher-priority rule's category is still the one returned. -/
theorem c6_witness :
    (parseAmount c6tx.amount = Except.ok 42 ∧
      matchesRule c6high (txParsed c6tx 42) = true ∧
      matchesRule c6low (txParsed c6tx 42) = true ∧
      c6low.priority < c6high.priority) ∧
    categorize [c6low, c6high] c6tx = Except.ok (some c6high.category) :=
  ⟨⟨rfl, by decide, by decide, by decide⟩,
    c6_priority_wins [c6low, c6high] c6tx 42 c6high c6low rfl
      (by simp) (List.mem_cons_self _ _) (by decide) (by decide) (by decide)
      (by decide)⟩

/-! ## Detector lemmas shared by C3, C5 and C7 -/

theorem subLe_trans (a b c : Subscription) :
    subLe a b = true → subLe b c = true → subLe a c = true := by
  simp only [subLe, decide_eq_true_eq]
  exact fun h1 h2 => h2.trans h1

theorem subLe_total (a b : Subscription) :
    (subLe a b || subLe b a) = true := by
  simp only [subLe, Bool.or_eq_true, decide_eq_true_eq]
  exact le_total b.confidence a.confidence

theorem calculateConfidence_le_one (intervals : List (Option ℚ)) (e : ℚ) :
    calculateConfidence intervals e ≤ 1 := by
  unfold calculateConfidence
  split
  · exact zero_le_one
  · next hne =>
    have hlen : 0 < (intervals.length : ℚ) := by
      have : intervals ≠ [] := fun h => hne (by simp [h])
      have := List.length_pos.mpr this
      exact_mod_cast this
    apply div_le_one_of_le₀
    · exact_mod_cast List.length_filter_le _ _
    · exact hlen.le

theorem detectSubscriptions_inv (txs : List Transaction)
    (subs : List Subscription) (h : detectSubscriptions txs = Except.ok subs) :
    ∃ groups, buildGroups txs [] = Except.ok groups ∧
      subs = (groups.filterMap analyzeGroup).mergeSort subLe := by
  unfold detectSubscriptions at h
  cases hg : buildGroups txs [] with
  | error e => rw [hg, exceptBind_err] at h; cases h
  | ok groups =>
    rw [hg, exceptBind_ok] at h
    cases h
    exact ⟨groups, rfl, rfl⟩

theorem analyzeGroup_inv (entry : String × List Transaction)
    (s : Subscription) (h : analyzeGroup entry = some s) :
    s.transactions = entry.2 ∧ 3 ≤ entry.2.length ∧
    (0.7 : ℚ) < s.confidence ∧ s.confidence ≤ 1 := by
  unfold analyzeGroup at h
  dsimp only at h
  split at h
  · cases h
  · next hlen =>
    split at h
    · cases h
    · next frequency heq =>
      split at h
      · next hconf =>
        cases h
        refine ⟨rfl, not_lt.mp hlen, of_decide_eq_true hconf, ?_⟩
        exact calculateConfidence_le_one _ _
      · cases h

theorem addToGroups_mem {groups : List (String × List Transaction)}
    {key : String} {tx : Transaction} {g : String × List Transaction}
    (hg : g ∈ addToGroups groups key tx) {t : Transaction} (ht : t ∈ g.2) :
    (∃ g' ∈ groups, t ∈ g'.2) ∨ t = tx := by
  unfold addToGroups at hg
  split at hg
  · obtain ⟨g', hg', hmap⟩ := List.mem_map.mp hg
    by_cases hk : g'.1 = key
    · rw [if_pos hk] at hmap
      subst hmap
      rcases List.mem_append.mp ht with h1 | h1
      · exact Or.inl ⟨g', hg', h1⟩
      · exact Or.inr (List.mem_singleton.mp h1)
    · rw [if_neg hk] at hmap
      subst hmap
      exact Or.inl ⟨g', hg', ht⟩
  · rcases List.mem_append.mp hg with h1 | h1
    · exact Or.inl ⟨g, h1, ht⟩
    · rw [List.mem_singleton.mp h1] at ht
      exact Or.inr (List.mem_singleton.mp ht)

theorem buildGroups_expense :
    ∀ (txs : List Transaction) (acc groups : List (String × List Transaction)),
    buildGroups txs acc = Except.ok groups →
    (∀ g ∈ acc, ∀ t ∈ g.2, t.classification = some "expense") →
    ∀ g ∈ groups, ∀ t ∈ g.2, t.classification = some "expense"
  | [], _, _, h, hacc => by cases h; exact hacc
  | tx :: rest, acc, groups, h, hacc => by
    unfold buildGroups at h
    split at h
    · exact buildGroups_expense rest acc groups h hacc
    · next hcl =>
      cases hp : parseAmount tx.amount with
      | error e => rw [hp, exceptBind_err] at h; cases h
      | ok a =>
        rw [hp, exceptBind_ok] at h
        refine buildGroups_expense rest _ groups h ?_
        intro g hg t ht
        rcases addToGroups_mem hg ht with ⟨g', hg', ht'⟩ | he
        · exact hacc g' hg' t ht'
        · subst he; exact not_not.mp hcl

theorem buildGroups_total :
    ∀ (txs : List Transaction) (acc : List (String × List Transaction)),
    (∀ t ∈ txs, t.classification = some "expense" →
      ∃ a, parseAmount t.amount = Except.ok a) →
    ∃ groups, buildGroups txs acc = Except.ok groups
  | [], acc, _ => ⟨acc, rfl⟩
  | tx :: rest, acc, h => by
    unfold buildGroups
    split
    · exact buildGroups_total rest acc
        (fun t ht => h t (List.mem_cons_of_mem _ ht))
    · next hcl =>
      obtain ⟨a, ha⟩ := h tx (List.mem_cons_self _ _) (not_not.mp hcl)
      rw [ha, exceptBind_ok]
      exact buildGroups_total rest _
        (fun t ht => h t (List.mem_cons_of_mem _ ht))

/-! ## C7 — Subscription invariants -/

/-- C7: every emitted Subscription rests on at least 3 transactions,
has confidence in `(0.7, 1]`, and the returned list is sorted by
descending confidence. -/
theorem c7_subscription_invariants (txs : List Transaction)
    (subs : List Subscription)
    (h : detectSubscriptions txs = Except.ok subs) :
    (∀ s ∈ subs, 3 ≤ s.transactions.length ∧
      (0.7 : ℚ) < s.confidence ∧ s.confidence ≤ 1) ∧
    subs.Pairwise (fun x y => y.confidence ≤ x.confidence) := by
  obtain ⟨groups, _, hsubs⟩ := detectSubscriptions_inv txs subs h
  subst hsubs
  constructor
  · intro s hs
    obtain ⟨g, _, hga⟩ := List.mem_filterMap.mp (List.mem_mergeSort.mp hs)
    obtain ⟨htr, hlen, hconf, hle1⟩ := analyzeGroup_inv g s hga
    exact ⟨htr ▸ hlen, hconf, hle1⟩
  · have hsorted := @List.sorted_mergeSort Subscription subLe
      (fun x y z => subLe_trans x y z) (fun x y => subLe_total x y)
      (groups.filterMap analyzeGroup)
    exact hsorted.imp (fun hab => by
      rw [subLe, decide_eq_true_eq] at hab
      exact hab)

/-- Three non-excluded monthly Spotify expense payments. -/
def c7batch : List Transaction :=
  [ { baseTx with
      id := "s1"
      date := "2024-01-01"
      amount := "9.99"
      merchant := some "Spotify" },
    { baseTx with
      id := "s2"
      date := "2024-01-31"
      amount := "9.99"
      merchant := some "Spotify" },
    { baseTx with
      id := "s3"
      date := "2024-03-01"
      amount := "9.99"
      merchant := some "Spotify" } ]

/-- The subscription list the detector computes for `c7batch`. -/
def c7subs : List Subscription :=
  (detectSubscriptions c7batch).toOption.getD []

unseal Rat.ofScientific Rat.mul Rat.inv Rat.add Rat.sub List.merge List.mergeSort in
/-- C7 witness: the invariants instantiated on a concrete batch that
produces one subscription. -/
theorem c7_witness :
    detectSubscriptions c7batch = Except.ok c7subs ∧
    ((∀ s ∈ c7subs, 3 ≤ s.transactions.length ∧
      (0.7 : ℚ) < s.confidence ∧ s.confidence ≤ 1) ∧
    c7subs.Pairwise (fun x y => y.confidence ≤ x.confidence)) :=
  ⟨rfl, c7_subscription_invariants c7batch c7subs rfl⟩

/-! ## C3 — which transactions the detector considers -/

/-- Three excluded-flagged monthly Netflix expense payments. -/
def c3batch : List Transaction :=
  [ { baseTx with
      id := "n1"
      date := "2024-01-01"
      amount := "12.99"
      merchant := some "Netflix"
      excluded := true },
    { baseTx with
      id := "n2"
      date := "2024-01-31"
      amount := "12.99"
      merchant := some "Netflix"
      excluded := true },
    { baseTx with
      id := "n3"
      date := "2024-03-01"
      amount := "12.99"
      merchant := some "Netflix"
      excluded := true } ]

unseal Rat.ofScientific Rat.mul Rat.inv Rat.add Rat.sub List.merge List.mergeSort in
/-- C3 counterexample: a batch of transactions that are all flagged
`excluded: true` still yields a Subscription built from exactly those
transactions — the detector never consults the excluded flag (nor any
lookback window: `detectSubscriptions` takes no window parameter). -/
theorem c3_counterexample :
    (∀ t ∈ c3batch, t.excluded = true) ∧
    (detectSubscriptions c3batch).map
      (fun subs => subs.map Subscription.transactions) =
      Except.ok [c3batch] :=
  ⟨by decide, rfl⟩

/-- C3 (amended): the detector restricts only on classification —
every transaction inside any returned Subscription is
expense-classified (income- and transfer-classified transactions
contribute to no group); the excluded flag and the transaction date
impose no restriction, there being no lookback parameter at all. -/
theorem c3_expense_only (txs : List Transaction) (subs : List Subscription)
    (h : detectSubscriptions txs = Except.ok subs) :
    ∀ s ∈ subs, ∀ t ∈ s.transactions, t.classification = some "expense" := by
  obtain ⟨groups, hg, hsubs⟩ := detectSubscriptions_inv txs subs h
  subst hsubs
  intro s hs t ht
  obtain ⟨g, hgmem, hga⟩ := List.mem_filterMap.mp (List.mem_mergeSort.mp hs)
  obtain ⟨htr, _, _, _⟩ := analyzeGroup_inv g s hga
  rw [htr] at ht
  exact buildGroups_expense txs [] groups hg
    (fun g' hg' => absurd hg' (List.not_mem_nil g')) g hgmem t ht

/-- The subscription list the detector computes for `c3batch`. -/
def c3subs : List Subscription :=
  (detectSubscriptions c3batch).toOption.getD []

unseal Rat.ofScientific Rat.mul Rat.inv Rat.add Rat.sub List.merge List.mergeSort in
/-- C3 witness: the amended claim instantiated on the concrete
batch. -/
theorem c3_witness :
    detectSubscriptions c3batch = Except.ok c3subs ∧
    ∀ s ∈ c3subs, ∀ t ∈ s.transactions,
      t.classification = some "expense" :=
  ⟨rfl, c3_expense_only c3batch c3subs rfl⟩

/-! ## C5 — malformed transactions in the batch -/

/-- An expense transaction whose amount string cannot be parsed. -/
def c5badTx : Transaction :=
  { baseTx with amount := "oops" }

/-- C5 counterexample: one expense transaction with an unparseable
amount makes the whole `detectSubscriptions` call throw — the parse
error propagates out instead of the transaction being skipped. -/
theorem c5_counterexample :
    c5badTx.classification = some "expense" ∧
    detectSubscriptions [c5badTx] =
      Except.error "Unable to parse amount: oops" :=
  ⟨rfl, rfl⟩

/-- C5 (amended): `detectSubscriptions` raises whenever some
expense-classified transaction carries an unparseable amount (the
thrown `parseAmount` error propagates); when every expense-classified
amount parses the call completes — in particular unparseable dates
never make it raise, they only produce `NaN` timestamps. -/
theorem c5_completes (txs : List Transaction)
    (h : ∀ t ∈ txs, t.classification = some "expense" →
      ∃ a, parseAmount t.amount = Except.ok a) :
    ∃ subs, detectSubscriptions txs = Except.ok subs := by
  obtain ⟨groups, hg⟩ := buildGroups_total txs [] h
  exact ⟨(groups.filterMap analyzeGroup).mergeSort subLe, by
    unfold detectSubscriptions
    rw [hg, exceptBind_ok]
    rfl⟩

/-- An expense transaction with a parseable amount but garbage
date. -/
def c5okBatch : List Transaction :=
  [{ baseTx with amount := "5", date := "not a date" }]

unseal Rat.ofScientific Rat.mul Rat.inv Rat.add Rat.sub in
/-- C5 witness: a batch whose only malformation is an unparseable
date completes without raising. -/
theorem c5_witness :
    (∀ t ∈ c5okBatch, t.classification = some "expense" →
      ∃ a, parseAmount t.amount = Except.ok a) ∧
    ∃ subs, detectSubscriptions c5okBatch = Except.ok subs :=
  ⟨fun t ht _ => by rw [List.mem_singleton.mp ht]; exact ⟨5, rfl⟩,
    c5_completes c5okBatch
      (fun t ht _ => by rw [List.mem_singleton.mp ht]; exact ⟨5, rfl⟩)⟩

/-! ## C9 — empty batch -/

theorem generateInsights_nil (days : ℚ) :
    generateInsights [] 0 days 0 = Except.ok [] := by
  unfold generateInsights
  simp only [List.filter_nil, List.foldlM_nil, zero_div, zero_mul,
    lt_irrefl, if_false, lt_self_iff_false]
  norm_num [sumAmounts]
  rfl

/-- C9: on an empty transaction batch, for any arguments the schema
accepts, the handler succeeds with all totals and daily averages zero
and (when insights are requested) an empty insight list. -/
theorem c9_empty_batch_zero (args : RollingArgs) (p : RollingParams)
    (hp : parseRollingArgs args = Except.ok p) :
    getRollingCashFlow args [] = Except.ok
      { inflows := 0
        outflows := 0
        netFlow := 0
        avgDailyInflow := 0
        avgDailyOutflow := 0
        avgDailyNet := 0
        totalCount := 0
        filteredOutCount := 0
        inflowCount := 0
        outflowCount := 0
        byCategory := if p.groupByCategory then some [] else none
        byAccount := if p.groupByAccount then some [] else none
        insights := if p.includeInsights then some [] else none } := by
  unfold getRollingCashFlow
  rw [hp]
  dsimp only
  have hfil : (match p.accountIds with
      | some ids =>
        if 0 < ids.length then
          List.filter (fun t => ids.contains (getAccountId t))
            ([] : List Transaction)
        else ([] : List Transaction)
      | none => ([] : List Transaction)) = [] := by
    cases p.accountIds with
    | none => rfl
    | some ids => dsimp only; split <;> rfl
  rw [hfil]
  have hex : (if p.excludeTransfers = true then excludeTransfers []
      else pure []) = Except.ok ([] : List Transaction) := by
    split <;> rfl
  rw [hex, exceptBind_ok]
  simp only [List.filter_nil]
  rw [show sumAmounts [] = Except.ok (0 : ℚ) from rfl, exceptBind_ok,
    exceptBind_ok]
  have hbc : (if p.groupByCategory = true then
      Except.map some (groupByCategoryFn ([] : List Transaction))
      else pure none) =
      Except.ok (if p.groupByCategory then some [] else none) := by
    split <;> rfl
  rw [hbc, exceptBind_ok]
  have hba : (if p.groupByAccount = true then
      Except.map some (groupByAccountFn ([] : List Transaction))
      else pure none) =
      Except.ok (if p.groupByAccount then some [] else none) := by
    split <;> rfl
  rw [hba, exceptBind_ok]
  have hins : (if p.includeInsights = true then
      Except.map some (generateInsights [] ((0 : ℚ) - 0) p.days
        ((0 : ℚ) / p.days))
      else pure none) =
      Except.ok (if p.includeInsights then some [] else none) := by
    split
    · rw [show ((0 : ℚ) - 0) = 0 by norm_num, zero_div,
        generateInsights_nil]
      rfl
    · rfl
  rw [hins, exceptBind_ok]
  norm_num
  rfl

unseal Rat.ofScientific Rat.mul Rat.inv Rat.add Rat.sub in
/-- C9 witness: the default arguments on the empty batch. -/
theorem c9_witness :
    parseRollingArgs {} = Except.ok
      { days := 30
        accountIds := none
        excludeTransfers := true
        groupByCategory := false
        groupByAccount := false
        includeInsights := true } ∧
    getRollingCashFlow {} [] = Except.ok
      { inflows := 0
        outflows := 0
        netFlow := 0
        avgDailyInflow := 0
        avgDailyOutflow := 0
        avgDailyNet := 0
        totalCount := 0
        filteredOutCount := 0
        inflowCount := 0
        outflowCount := 0
        byCategory := none
        byAccount := none
        insights := some [] } :=
  ⟨rfl,
    c9_empty_batch_zero {}
      { days := 30
        accountIds := none
        excludeTransfers := true
        groupByCategory := false
        groupByAccount := false
        includeInsights := true } rfl⟩

/-! ## C10 — exclusion marks ids, not disjoint pairs -/

/-- One income and two expense transactions, same date, all amount
50. -/
def c10batch : List Transaction :=
  [ { baseTx with
      id := "i1"
      date := "2024-02-10"
      amount := "50"
      classification := some "income" },
    { baseTx with
      id := "e1"
      date := "2024-02-10"
      amount := "50"
      classification := some "expense" },
    { baseTx with
      id := "e2"
      date := "2024-02-10"
      amount := "50"
      classification := some "expense" } ]

unseal Rat.ofScientific Rat.mul Rat.inv Rat.add Rat.sub in
/-- C10: the pairwise scan marks individual transaction ids rather
than consuming disjoint pairs — with one income and two matching
expense transactions on the same date, all three are excluded, so the
summary's inflow and outflow totals are both zero and all three
transactions count as filtered out. -/
theorem c10_triple_excluded :
    excludeTransfers c10batch = Except.ok [] ∧
    (getRollingCashFlow {} c10batch).map
      (fun r => (r.inflows, r.outflows, r.netFlow, r.totalCount,
        r.filteredOutCount)) =
      Except.ok (0, 0, 0, 0, 3) :=
  ⟨rfl, rfl⟩

end MaybeMcp
